import Mathlib

/-!
Verification of the pose-to-feedback analytical pipeline of the
biome-backend repository.

The embedding translates, from the Python sources:
  * `biome_coaching_agent/tools/analyze_workout_form.py`
      (`_calculate_squat_score`, `_identify_squat_issues`,
       `_identify_generic_issues`)
  * `biome_coaching_agent/biomechanics_standards.py` (threshold constants)
  * `biome_coaching_agent/tools/extract_pose_landmarks.py`
      (`_aggregate_metrics`)
  * `Final_gym/utils/pose_features.py` (`ema`, `angle`)
  * `Final_gym/utils/joint_angles.py` (`extract_angle_vector`)
  * `Final_gym/scripts/realtime_match.py` (feedback cooldown gate of
      `run_live_match`)

Numeric conventions: Python floats are modelled as exact rationals where
only rational arithmetic and comparisons occur, and as reals where the
code applies `arccos`/`sqrt`.  Where IEEE NaN behaviour decides a claim
(the angle-range guard of `extract_angle_vector`), values are modelled as
`Option` of a real, `none` standing for NaN, with IEEE comparison
semantics (all comparisons with NaN are false).  Python `round(x, 1)` is
modelled as round-half-to-even on tenths, `int(x)` as truncation toward
zero.  Strings interpolated into coaching cues are not modelled; the
`issue_type`, `severity`, frame range and `confidence_score` fields of an
issue are.
-/

/-- Python `round` to the nearest integer, ties to even (banker's
rounding), on exact rationals. -/
def rne (q : ℚ) : ℤ :=
  if q - (⌊q⌋ : ℚ) < 1/2 then ⌊q⌋
  else if 1/2 < q - (⌊q⌋ : ℚ) then ⌊q⌋ + 1
  else if ⌊q⌋ % 2 = 0 then ⌊q⌋ else ⌊q⌋ + 1

/-- Python `round(x, 1)`: round half to even at one decimal place. -/
def pyRound1 (q : ℚ) : ℚ := ((rne (q * 10) : ℚ)) / 10

/-- Python `int(x)`: truncation toward zero. -/
def pyTrunc (q : ℚ) : ℤ := if 0 ≤ q then ⌊q⌋ else ⌈q⌉

/-- A Python `Dict[str, float]` of metrics, as an association list;
`mget` is `d.get(key, default)`. -/
abbrev Metrics := List (String × ℚ)

/-- `metrics.get(k, d)` from the source. -/
def mget (m : Metrics) (k : String) (d : ℚ) : ℚ := (List.lookup k m).getD d

/-! Threshold constants from `biomechanics_standards.py` (`SquatStandards`
singleton `SQUAT_STANDARDS` and the scoring constants). -/

def SquatStandards.GOOD_DEPTH_MAX_ANGLE : ℚ := 95
def SquatStandards.OPTIMAL_DEPTH_ANGLE : ℚ := 90
def SquatStandards.INSUFFICIENT_DEPTH_THRESHOLD : ℚ := 110
def SquatStandards.SEVERE_DEPTH_THRESHOLD : ℚ := 120
def SquatStandards.EXCESSIVE_DEPTH_MIN : ℚ := 70
def SquatStandards.MAX_KNEE_ASYMMETRY_WARNING : ℚ := 15
def SquatStandards.MIN_HIP_ANGLE_TARGET : ℚ := 150
def SquatStandards.DEPTH_PENALTY_MAX : ℚ := 3
def SquatStandards.ASYMMETRY_PENALTY_MAX : ℚ := 2
def SquatStandards.FORWARD_LEAN_PENALTY_MAX : ℚ := 2
def SquatStandards.EXCESSIVE_DEPTH_PENALTY_MAX : ℚ := 1.5
def SquatStandards.DEPTH_ISSUE_CONFIDENCE : ℚ := 0.85

def FrameEst.SQUAT_DESCENT_START : ℚ := 0.2
def FrameEst.SQUAT_BOTTOM_END : ℚ := 0.8

def PERFECT_SCORE : ℚ := 10

/-! `_calculate_squat_score` from `analyze_workout_form.py`.  The three
penalty checks append to the `penalties` list in source order; each check
is translated as the list it contributes. -/

/-- Depth check of `_calculate_squat_score` (insufficient depth `if`,
excessive depth `elif`). -/
def depthPenalties (minKnee : ℚ) : List ℚ :=
  if SquatStandards.INSUFFICIENT_DEPTH_THRESHOLD < minKnee then
    [min ((minKnee - SquatStandards.OPTIMAL_DEPTH_ANGLE) / 20)
       SquatStandards.DEPTH_PENALTY_MAX]
  else if minKnee < SquatStandards.EXCESSIVE_DEPTH_MIN then
    [min ((SquatStandards.EXCESSIVE_DEPTH_MIN - minKnee) / 10)
       SquatStandards.EXCESSIVE_DEPTH_PENALTY_MAX]
  else []

/-- Knee-asymmetry check of `_calculate_squat_score`. -/
def asymmetryPenalties (asym : ℚ) : List ℚ :=
  if SquatStandards.MAX_KNEE_ASYMMETRY_WARNING < asym then
    [min (asym / SquatStandards.MAX_KNEE_ASYMMETRY_WARNING * 1.5)
       SquatStandards.ASYMMETRY_PENALTY_MAX]
  else []

/-- Hip-hinge (forward lean) check of `_calculate_squat_score`. -/
def leanPenalties (avgHip : ℚ) : List ℚ :=
  if avgHip < SquatStandards.MIN_HIP_ANGLE_TARGET then
    [min ((SquatStandards.MIN_HIP_ANGLE_TARGET - avgHip) / 20)
       SquatStandards.FORWARD_LEAN_PENALTY_MAX]
  else []

/-- The `penalties` list accumulated by `_calculate_squat_score`. -/
def squatPenalties (m : Metrics) : List ℚ :=
  depthPenalties (min (mget m "left_knee_min" 180) (mget m "right_knee_min" 180))
    ++ asymmetryPenalties |mget m "left_knee_avg" 180 - mget m "right_knee_avg" 180|
    ++ leanPenalties ((mget m "left_hip_avg" 180 + mget m "right_hip_avg" 180) / 2)

/-- `_calculate_squat_score`: `round(max(0.0, 10 - sum(penalties)), 1)`. -/
def calculate_squat_score (m : Metrics) : ℚ :=
  pyRound1 (max 0 (PERFECT_SCORE - (squatPenalties m).sum))

/-- A form issue as built by the issue identifiers (the templated
`coaching_cue` string is not modelled). -/
structure Issue where
  issue_type : String
  severity : String
  frame_start : ℤ
  frame_end : ℤ
  confidence_score : ℚ
deriving DecidableEq

/-- Issue 1 of `_identify_squat_issues` (insufficient depth), as a
function of `min_knee_angle`. -/
def depthIssues (minKnee : ℚ) (total_frames : ℤ) : List Issue :=
  if SquatStandards.GOOD_DEPTH_MAX_ANGLE < minKnee then
    [{ issue_type := "Insufficient Squat Depth",
       severity :=
         if SquatStandards.SEVERE_DEPTH_THRESHOLD < minKnee then "severe"
         else "moderate",
       frame_start := pyTrunc ((total_frames : ℚ) * FrameEst.SQUAT_DESCENT_START),
       frame_end := pyTrunc ((total_frames : ℚ) * FrameEst.SQUAT_BOTTOM_END),
       confidence_score := SquatStandards.DEPTH_ISSUE_CONFIDENCE }]
  else []

/-- Issue 2 of `_identify_squat_issues` (knee valgus), as a function of
the knee asymmetry. -/
def valgusIssues (asym : ℚ) (total_frames : ℤ) : List Issue :=
  if 15 < asym then
    [{ issue_type := "Knee Asymmetry/Valgus",
       severity := if 25 < asym then "severe" else "moderate",
       frame_start := pyTrunc ((total_frames : ℚ) * 0.25),
       frame_end := pyTrunc ((total_frames : ℚ) * 0.75),
       confidence_score := 0.75 }]
  else []

/-- Issue 3 of `_identify_squat_issues` (excessive forward lean), as a
function of `avg_hip`. -/
def forwardLeanIssues (avgHip : ℚ) (total_frames : ℤ) : List Issue :=
  if avgHip < 145 then
    [{ issue_type := "Excessive Forward Lean",
       severity := if avgHip < 135 then "severe" else "moderate",
       frame_start := pyTrunc ((total_frames : ℚ) * 0.1),
       frame_end := pyTrunc ((total_frames : ℚ) * 0.9),
       confidence_score := 0.70 }]
  else []

/-- `_identify_squat_issues` from `analyze_workout_form.py`. -/
def identify_squat_issues (m : Metrics) (total_frames : ℤ) : List Issue :=
  depthIssues (min (mget m "left_knee_min" 180) (mget m "right_knee_min" 180))
      total_frames
    ++ valgusIssues |mget m "left_knee_avg" 180 - mget m "right_knee_avg" 180|
      total_frames
    ++ forwardLeanIssues
      ((mget m "left_hip_avg" 180 + mget m "right_hip_avg" 180) / 2) total_frames

/-- Issue 1 of `_identify_generic_issues` (asymmetric movement), as a
function of `max_asymmetry`. -/
def genericAsymIssues (maxAsym : ℚ) (total_frames : ℤ) : List Issue :=
  if 15 < maxAsym then
    [{ issue_type := "Asymmetric Movement Pattern",
       severity := if 25 < maxAsym then "severe" else "moderate",
       frame_start := pyTrunc ((total_frames : ℚ) * 0.2),
       frame_end := pyTrunc ((total_frames : ℚ) * 0.8),
       confidence_score := 0.80 }]
  else []

/-- Issue 2 of `_identify_generic_issues` (limited range of motion), as a
function of `knee_range`. -/
def genericRomIssues (kneeRange : ℚ) (total_frames : ℤ) : List Issue :=
  if kneeRange < 40 then
    [{ issue_type := "Limited Range of Motion",
       severity := if kneeRange < 20 then "moderate" else "minor",
       frame_start := 0,
       frame_end := total_frames - 1,
       confidence_score := 0.75 }]
  else []

/-- Issue 3 of `_identify_generic_issues` (core instability), as a
function of `hip_variance`. -/
def genericStabilityIssues (hipVariance : ℚ) (total_frames : ℤ) : List Issue :=
  if 25 < hipVariance then
    [{ issue_type := "Core Stability Issue",
       severity := if 35 < hipVariance then "moderate" else "minor",
       frame_start := pyTrunc ((total_frames : ℚ) * 0.25),
       frame_end := pyTrunc ((total_frames : ℚ) * 0.75),
       confidence_score := 0.70 }]
  else []

/-- `_identify_generic_issues` from `analyze_workout_form.py` (the
`exercise_name` argument is used only inside cue strings and is
omitted). -/
def identify_generic_issues (m : Metrics) (total_frames : ℤ) : List Issue :=
  genericAsymIssues
      (max |mget m "left_knee_avg" 180 - mget m "right_knee_avg" 180|
        |mget m "left_hip_avg" 180 - mget m "right_hip_avg" 180|) total_frames
    ++ genericRomIssues |mget m "left_knee_max" 180 - mget m "left_knee_min" 0|
      total_frames
    ++ genericStabilityIssues
      (max (mget m "left_hip_max" 180) (mget m "right_hip_max" 180)
        - min (mget m "left_hip_min" 0) (mget m "right_hip_min" 0)) total_frames

/-! `_aggregate_metrics` from `extract_pose_landmarks.py`.  Its input is
the `angle_series` list whose entries are exactly the dictionaries built
by `_calc_joint_angles` (keys `left_knee`, `right_knee`, `left_hip`,
`right_hip` in that insertion order). -/

/-- One entry of `angle_series`: the dictionary returned by
`_calc_joint_angles`. -/
structure FrameAngles where
  left_knee : ℚ
  right_knee : ℚ
  left_hip : ℚ
  right_hip : ℚ
deriving DecidableEq

/-- The `avg`/`min`/`max` entries `_aggregate_metrics` adds for one key,
given a non-empty list of values `x :: xs`. -/
def keyStats (k : String) (x : ℚ) (xs : List ℚ) : Metrics :=
  [(k ++ "_avg", (x + xs.sum) / ((xs.length : ℚ) + 1)),
   (k ++ "_min", xs.foldl min x),
   (k ++ "_max", xs.foldl max x)]

/-- `_aggregate_metrics`: `{"count": len}` plus, for each key of the
first frame, its mean, min and max over the series.  An empty series has
no keys, so only `count` is emitted. -/
def aggregate_metrics : List FrameAngles → Metrics
  | [] => [("count", 0)]
  | f :: fs =>
      ("count", ((fs.length : ℚ) + 1)) ::
        (keyStats "left_knee" f.left_knee (fs.map FrameAngles.left_knee)
          ++ keyStats "right_knee" f.right_knee (fs.map FrameAngles.right_knee)
          ++ keyStats "left_hip" f.left_hip (fs.map FrameAngles.left_hip)
          ++ keyStats "right_hip" f.right_hip (fs.map FrameAngles.right_hip))

/-! `ema` from `Final_gym/utils/pose_features.py`, over the 4-angle
vectors (hip, knee, back, ankle) produced by `extract_angle_vector`. -/

/-- A valid 4-component angle vector (exact-rational model). -/
structure AngleVec where
  hip : ℚ
  knee : ℚ
  back : ℚ
  ankle : ℚ
deriving DecidableEq

/-- `ema(prev, curr, alpha)`: `curr` if `prev is None`, else
`alpha*curr + (1-alpha)*prev` componentwise. -/
def ema (prev : Option AngleVec) (curr : AngleVec) (alpha : ℚ) : AngleVec :=
  match prev with
  | none => curr
  | some p =>
      { hip := alpha * curr.hip + (1 - alpha) * p.hip,
        knee := alpha * curr.knee + (1 - alpha) * p.knee,
        back := alpha * curr.back + (1 - alpha) * p.back,
        ankle := alpha * curr.ankle + (1 - alpha) * p.ankle }

/-! The feedback-cooldown gate of `run_live_match` in
`Final_gym/scripts/realtime_match.py`.  Per frame with a computed
feedback string, the loop speaks only when the string differs from
`last_feedback` AND `feedback_cooldown <= 0`; on speaking it sets the
cooldown to `FEEDBACK_COOLDOWN = 30` and updates `last_feedback`; at the
end of every iteration it runs `feedback_cooldown = max(0,
feedback_cooldown - 1)`.  The model takes `speak_on = True` with a
succeeding audio sink (audio errors are swallowed by the source). -/

def FEEDBACK_COOLDOWN : ℤ := 30

/-- Gate state: `last_feedback` and `feedback_cooldown`. -/
structure LoopState where
  last : String
  cooldown : ℤ
deriving DecidableEq

/-- One frame of the gate: returns the new state and whether a
notification was emitted this frame. -/
def feedbackStep (s : LoopState) (feedback : String) : LoopState × Bool :=
  if feedback ≠ s.last ∧ s.cooldown ≤ 0 then
    ({ last := feedback, cooldown := max 0 (FEEDBACK_COOLDOWN - 1) }, true)
  else
    ({ last := s.last, cooldown := max 0 (s.cooldown - 1) }, false)

/-- The gate run over a list of per-frame feedback strings, returning the
emission flags in order. -/
def feedbackRun (s : LoopState) : List String → List Bool
  | [] => []
  | f :: fs => (feedbackStep s f).2 :: feedbackRun (feedbackStep s f).1 fs

/-! `extract_angle_vector` from `Final_gym/utils/joint_angles.py` with
`angle` from `Final_gym/utils/pose_features.py`.  Values are `Option ℝ`
with `none` standing for IEEE NaN: arithmetic, `sqrt`, `clip`, `arccos`
and `degrees` all propagate NaN, and every comparison with NaN is false
(exactly the NumPy behaviour the source relies on). -/

/-- A float that may be NaN. -/
abbrev FR := Option ℝ

/-- NaN-propagating binary operation. -/
def fBin (f : ℝ → ℝ → ℝ) : FR → FR → FR
  | some a, some b => some (f a b)
  | _, _ => none

/-- NaN-propagating unary operation. -/
def fUn (f : ℝ → ℝ) : FR → FR
  | some a => some (f a)
  | none => none

noncomputable def fadd : FR → FR → FR := fBin (fun a b => a + b)
noncomputable def fsub : FR → FR → FR := fBin (fun a b => a - b)
noncomputable def fmul : FR → FR → FR := fBin (fun a b => a * b)
noncomputable def fdiv : FR → FR → FR := fBin (fun a b => a / b)
noncomputable def fsqrt : FR → FR := fUn Real.sqrt

/-- `np.clip(x, -1.0, 1.0)` (NaN passes through). -/
noncomputable def fclip : FR → FR := fUn (fun x => min (max x (-1)) 1)

/-- `np.degrees(np.arccos(x))` (NaN passes through). -/
noncomputable def farccosDegrees : FR → FR :=
  fUn (fun x => Real.arccos x * (180 / Real.pi))

/-- IEEE `<` as a boolean: any comparison involving NaN is false. -/
noncomputable def fltb : FR → FR → Bool
  | some a, some b => decide (a < b)
  | _, _ => false

/-- A landmark point (x, y, z), each coordinate possibly NaN. -/
structure Pt where
  x : FR
  y : FR
  z : FR

/-- Componentwise vector subtraction `p - q`. -/
noncomputable def ptSub (p q : Pt) : Pt :=
  ⟨fsub p.x q.x, fsub p.y q.y, fsub p.z q.z⟩

/-- `np.linalg.norm(v)` for a 3-vector. -/
noncomputable def ptNorm (p : Pt) : FR :=
  fsqrt (fadd (fadd (fmul p.x p.x) (fmul p.y p.y)) (fmul p.z p.z))

/-- Componentwise division of a vector by a scalar. -/
noncomputable def ptDivScalar (p : Pt) (s : FR) : Pt :=
  ⟨fdiv p.x s, fdiv p.y s, fdiv p.z s⟩

/-- Dot product of 3-vectors. -/
noncomputable def ptDot (p q : Pt) : FR :=
  fadd (fadd (fmul p.x q.x) (fmul p.y q.y)) (fmul p.z q.z)

/-- `angle(a, b, c)` from `pose_features.py`: normalise `ba` and `bc`
(with the `1e-8` guard), clip the cosine into `[-1, 1]`, `arccos`,
convert to degrees. -/
noncomputable def angleF (a b c : Pt) : FR :=
  let ba := ptSub a b
  let bc := ptSub c b
  let ban := ptDivScalar ba (fadd (ptNorm ba) (some 1e-8))
  let bcn := ptDivScalar bc (fadd (ptNorm bc) (some 1e-8))
  farccosDegrees (fclip (ptDot ban bcn))

/-- The 4-angle output vector of `extract_angle_vector`
(hip, knee, back, ankle), components possibly NaN. -/
structure Vec4F where
  hip : FR
  knee : FR
  back : FR
  ankle : FR

/-- The range guard of `extract_angle_vector`:
`np.any(angles < 0) or np.any(angles > 180)` under IEEE comparison
semantics (every comparison with NaN is false), then return the
4-angle vector. -/
noncomputable def extractGuard (hip knee back ankle : FR) : Option Vec4F :=
  if (fltb hip (some 0) || fltb knee (some 0) ||
      fltb back (some 0) || fltb ankle (some 0) ||
      fltb (some 180) hip || fltb (some 180) knee ||
      fltb (some 180) back || fltb (some 180) ankle) then
    none
  else
    some ⟨hip, knee, back, ankle⟩

/-- The body of `extract_angle_vector` for a present landmark list:
resolve the required indices (12, 23, 24, 25, 26, 27, 28, 30; `None` if
any cannot be resolved), compute the four angles (hip, knee, back,
ankle — `back` repeats the hip triple, as in the source) and apply the
range guard. -/
noncomputable def extractFromList (l : List Pt) : Option Vec4F :=
  match l.get? 12, l.get? 23, l.get? 24, l.get? 25,
        l.get? 26, l.get? 27, l.get? 28, l.get? 30 with
  | some rs, some _lh, some rh, some _lk, some rk, some _la, some ra, some rf =>
      extractGuard (angleF rs rh rk) (angleF rh rk ra)
        (angleF rs rh rk) (angleF rk ra rf)
  | _, _, _, _, _, _, _, _ => none

/-- `extract_angle_vector(landmarks)`: `None` for an absent landmark
set, else process the list. -/
noncomputable def extract_angle_vector : Option (List Pt) → Option Vec4F
  | none => none
  | some l => extractFromList l

/-! Helper lemmas about the rounding and truncation models. -/

lemma rne_cases (q : ℚ) : rne q = ⌊q⌋ ∨ rne q = ⌊q⌋ + 1 := by
  unfold rne
  split_ifs <;> simp

lemma rne_mono {p q : ℚ} (h : p ≤ q) : rne p ≤ rne q := by
  rcases eq_or_lt_of_le (Int.floor_mono h : ⌊p⌋ ≤ ⌊q⌋) with hf | hf
  · unfold rne
    rw [← hf]
    split_ifs <;> first | omega | linarith
  · have h1 : rne p ≤ ⌊p⌋ + 1 := by rcases rne_cases p with h' | h' <;> omega
    have h2 : ⌊q⌋ ≤ rne q := by rcases rne_cases q with h' | h' <;> omega
    omega

lemma pyRound1_mono {p q : ℚ} (h : p ≤ q) : pyRound1 p ≤ pyRound1 q := by
  unfold pyRound1
  have h1 : rne (p * 10) ≤ rne (q * 10) := rne_mono (by linarith)
  have h2 : ((rne (p * 10) : ℚ)) ≤ ((rne (q * 10) : ℚ)) := by exact_mod_cast h1
  linarith

lemma pyRound1_zero : pyRound1 0 = 0 := by norm_num [pyRound1, rne]

lemma pyRound1_ten : pyRound1 10 = 10 := by norm_num [pyRound1, rne]

lemma pyRound1_bounds {q : ℚ} (h0 : 0 ≤ q) (h10 : q ≤ 10) :
    0 ≤ pyRound1 q ∧ pyRound1 q ≤ 10 := by
  constructor
  · have := pyRound1_mono h0
    rw [pyRound1_zero] at this
    exact this
  · have := pyRound1_mono h10
    rw [pyRound1_ten] at this
    exact this

/-! Helper lemmas about the squat penalties. -/

lemma depthPenalties_sum_nonneg (mk : ℚ) : 0 ≤ (depthPenalties mk).sum := by
  unfold depthPenalties SquatStandards.INSUFFICIENT_DEPTH_THRESHOLD
    SquatStandards.OPTIMAL_DEPTH_ANGLE SquatStandards.EXCESSIVE_DEPTH_MIN
    SquatStandards.DEPTH_PENALTY_MAX SquatStandards.EXCESSIVE_DEPTH_PENALTY_MAX
  split_ifs with h1 h2
  · simp only [List.sum_cons, List.sum_nil, add_zero]
    exact le_min (by linarith) (by norm_num)
  · simp only [List.sum_cons, List.sum_nil, add_zero]
    exact le_min (by linarith) (by norm_num)
  · simp

lemma asymmetryPenalties_sum_nonneg (a : ℚ) : 0 ≤ (asymmetryPenalties a).sum := by
  unfold asymmetryPenalties SquatStandards.MAX_KNEE_ASYMMETRY_WARNING
    SquatStandards.ASYMMETRY_PENALTY_MAX
  split_ifs with h1
  · simp only [List.sum_cons, List.sum_nil, add_zero]
    exact le_min (by linarith) (by norm_num)
  · simp

lemma leanPenalties_sum_nonneg (h : ℚ) : 0 ≤ (leanPenalties h).sum := by
  unfold leanPenalties SquatStandards.MIN_HIP_ANGLE_TARGET
    SquatStandards.FORWARD_LEAN_PENALTY_MAX
  split_ifs with h1
  · simp only [List.sum_cons, List.sum_nil, add_zero]
    exact le_min (by linarith) (by norm_num)
  · simp

lemma squatPenalties_sum_nonneg (m : Metrics) : 0 ≤ (squatPenalties m).sum := by
  unfold squatPenalties
  rw [List.sum_append, List.sum_append]
  have h1 := depthPenalties_sum_nonneg
    (min (mget m "left_knee_min" 180) (mget m "right_knee_min" 180))
  have h2 := asymmetryPenalties_sum_nonneg
    |mget m "left_knee_avg" 180 - mget m "right_knee_avg" 180|
  have h3 := leanPenalties_sum_nonneg
    ((mget m "left_hip_avg" 180 + mget m "right_hip_avg" 180) / 2)
  linarith

lemma squat_score_bounds (m : Metrics) :
    0 ≤ calculate_squat_score m ∧ calculate_squat_score m ≤ 10 := by
  unfold calculate_squat_score PERFECT_SCORE
  have hs := squatPenalties_sum_nonneg m
  exact pyRound1_bounds (le_max_left _ _)
    (max_le (by norm_num) (by linarith))

/-- Claim C4: for every AggregateMetrics input, the squat score equals
`max(0, 10 - sum of applied penalties)` rounded to one decimal, and
consequently always lies in [0.0, 10.0]. -/
theorem squat_score_formula_and_range (m : Metrics) :
    calculate_squat_score m = pyRound1 (max 0 (10 - (squatPenalties m).sum))
      ∧ 0 ≤ calculate_squat_score m ∧ calculate_squat_score m ≤ 10 :=
  ⟨rfl, (squat_score_bounds m).1, (squat_score_bounds m).2⟩

/-- Claim C6: between two squat metrics that agree on the depth and hip
inputs and whose knee asymmetries are both above the warning threshold,
the one with the larger asymmetry never gets a higher squat score. -/
theorem squat_score_asymmetry_antitone (m1 m2 : Metrics)
    (hlk : mget m1 "left_knee_min" 180 = mget m2 "left_knee_min" 180)
    (hrk : mget m1 "right_knee_min" 180 = mget m2 "right_knee_min" 180)
    (hlh : mget m1 "left_hip_avg" 180 = mget m2 "left_hip_avg" 180)
    (hrh : mget m1 "right_hip_avg" 180 = mget m2 "right_hip_avg" 180)
    (hw : 15 < |mget m1 "left_knee_avg" 180 - mget m1 "right_knee_avg" 180|)
    (hle : |mget m1 "left_knee_avg" 180 - mget m1 "right_knee_avg" 180|
      ≤ |mget m2 "left_knee_avg" 180 - mget m2 "right_knee_avg" 180|) :
    calculate_squat_score m2 ≤ calculate_squat_score m1 := by
  unfold calculate_squat_score
  apply pyRound1_mono
  apply max_le_max le_rfl
  have ha : (asymmetryPenalties
        |mget m1 "left_knee_avg" 180 - mget m1 "right_knee_avg" 180|).sum
      ≤ (asymmetryPenalties
        |mget m2 "left_knee_avg" 180 - mget m2 "right_knee_avg" 180|).sum := by
    unfold asymmetryPenalties SquatStandards.MAX_KNEE_ASYMMETRY_WARNING
      SquatStandards.ASYMMETRY_PENALTY_MAX
    rw [if_pos hw, if_pos (lt_of_lt_of_le hw hle)]
    simp only [List.sum_cons, List.sum_nil, add_zero]
    exact min_le_min (by linarith) le_rfl
  have hsum : (squatPenalties m1).sum ≤ (squatPenalties m2).sum := by
    unfold squatPenalties
    rw [List.sum_append, List.sum_append, List.sum_append, List.sum_append,
      hlk, hrk, hlh, hrh]
    linarith
  linarith

/-- Claim C6 witness: a concrete instantiation of the asymmetry
monotonicity theorem. -/
theorem squat_score_asymmetry_antitone_witness :
    calculate_squat_score [("left_knee_avg", (0 : ℚ)), ("right_knee_avg", 30)]
      ≤ calculate_squat_score [("left_knee_avg", (0 : ℚ)), ("right_knee_avg", 20)] := by
  have e1 : mget [("left_knee_avg", (0 : ℚ)), ("right_knee_avg", 20)]
      "left_knee_avg" 180 = 0 := rfl
  have e2 : mget [("left_knee_avg", (0 : ℚ)), ("right_knee_avg", 20)]
      "right_knee_avg" 180 = 20 := rfl
  have e3 : mget [("left_knee_avg", (0 : ℚ)), ("right_knee_avg", 30)]
      "left_knee_avg" 180 = 0 := rfl
  have e4 : mget [("left_knee_avg", (0 : ℚ)), ("right_knee_avg", 30)]
      "right_knee_avg" 180 = 30 := rfl
  exact squat_score_asymmetry_antitone _ _ rfl rfl rfl rfl
    (by rw [e1, e2]; norm_num) (by rw [e1, e2, e3, e4]; norm_num)

/-- Claim C2 (amended): `_aggregate_metrics` imposes no minimum sequence
length.  Every sequence shorter than 20 frames is still aggregated: the
result carries `count` equal to the sequence length, and a squat score in
[0, 10] is computed from it (there is no `InsufficientData` failure
path). -/
theorem aggregate_no_minimum (series : List FrameAngles)
    (hshort : series.length < 20) :
    List.lookup "count" (aggregate_metrics series) = some (series.length : ℚ)
      ∧ 0 ≤ calculate_squat_score (aggregate_metrics series)
      ∧ calculate_squat_score (aggregate_metrics series) ≤ 10 := by
  refine ⟨?_, (squat_score_bounds _).1, (squat_score_bounds _).2⟩
  cases series with
  | nil => simp [aggregate_metrics, List.lookup]
  | cons f fs =>
      simp [aggregate_metrics, List.lookup]

/-- A concrete 10-frame angle series (all frames identical). -/
def tenFrames : List FrameAngles :=
  [⟨100, 100, 160, 160⟩, ⟨100, 100, 160, 160⟩, ⟨100, 100, 160, 160⟩,
   ⟨100, 100, 160, 160⟩, ⟨100, 100, 160, 160⟩, ⟨100, 100, 160, 160⟩,
   ⟨100, 100, 160, 160⟩, ⟨100, 100, 160, 160⟩, ⟨100, 100, 160, 160⟩,
   ⟨100, 100, 160, 160⟩]

/-- Claim C2 witness: the amended theorem applied to the concrete
10-frame series. -/
theorem aggregate_no_minimum_witness :
    List.lookup "count" (aggregate_metrics tenFrames)
      = some (tenFrames.length : ℚ) :=
  (aggregate_no_minimum tenFrames (by norm_num [tenFrames])).1

/-- The aggregate metrics of `tenFrames`, written out. -/
def tenFramesAgg : Metrics :=
  [("count", 10),
   ("left_knee_avg", 100), ("left_knee_min", 100), ("left_knee_max", 100),
   ("right_knee_avg", 100), ("right_knee_min", 100), ("right_knee_max", 100),
   ("left_hip_avg", 160), ("left_hip_min", 160), ("left_hip_max", 160),
   ("right_hip_avg", 160), ("right_hip_min", 160), ("right_hip_max", 160)]

/-- Claim C2 counterexample: a sequence of 10 valid frames (fewer than
20) is aggregated without any `InsufficientData` error — the metrics
carry `count = 10` and a squat score (here 10.0) is computed from
them. -/
theorem aggregate_ten_frames_scored_counterexample :
    List.lookup "count" (aggregate_metrics tenFrames) = some 10
      ∧ calculate_squat_score (aggregate_metrics tenFrames) = 10 := by
  have hagg : aggregate_metrics tenFrames = tenFramesAgg := by
    norm_num [tenFrames, tenFramesAgg, aggregate_metrics, keyStats]
    exact ⟨rfl, rfl, rfl, rfl, rfl, rfl, rfl, rfl, rfl, rfl, rfl, rfl⟩
  rw [hagg]
  refine ⟨rfl, ?_⟩
  have g1 : mget tenFramesAgg "left_knee_min" 180 = 100 := rfl
  have g2 : mget tenFramesAgg "right_knee_min" 180 = 100 := rfl
  have g3 : mget tenFramesAgg "left_knee_avg" 180 = 100 := rfl
  have g4 : mget tenFramesAgg "right_knee_avg" 180 = 100 := rfl
  have g5 : mget tenFramesAgg "left_hip_avg" 180 = 160 := rfl
  have g6 : mget tenFramesAgg "right_hip_avg" 180 = 160 := rfl
  unfold calculate_squat_score squatPenalties PERFECT_SCORE
  rw [g1, g2, g3, g4, g5, g6]
  norm_num [depthPenalties, asymmetryPenalties, leanPenalties,
    SquatStandards.INSUFFICIENT_DEPTH_THRESHOLD, SquatStandards.EXCESSIVE_DEPTH_MIN,
    SquatStandards.MAX_KNEE_ASYMMETRY_WARNING, SquatStandards.MIN_HIP_ANGLE_TARGET,
    pyRound1, rne]

/-! Filter helper lemmas: non-depth squat issues never carry the depth
issue tag, and non-asymmetry generic issues never carry the asymmetry
tag. -/

lemma valgusIssues_filter_depth (a : ℚ) (N : ℤ) :
    (valgusIssues a N).filter
      (fun i => i.issue_type == "Insufficient Squat Depth") = [] := by
  have hb : (("Knee Asymmetry/Valgus" : String) == "Insufficient Squat Depth")
      = false := rfl
  unfold valgusIssues
  split_ifs <;> simp [List.filter, hb]

lemma forwardLeanIssues_filter_depth (h : ℚ) (N : ℤ) :
    (forwardLeanIssues h N).filter
      (fun i => i.issue_type == "Insufficient Squat Depth") = [] := by
  have hb : (("Excessive Forward Lean" : String) == "Insufficient Squat Depth")
      = false := rfl
  unfold forwardLeanIssues
  split_ifs <;> simp [List.filter, hb]

lemma genericRomIssues_filter_asym (r : ℚ) (N : ℤ) :
    (genericRomIssues r N).filter
      (fun i => i.issue_type == "Asymmetric Movement Pattern") = [] := by
  have hb : (("Limited Range of Motion" : String) == "Asymmetric Movement Pattern")
      = false := rfl
  unfold genericRomIssues
  split_ifs <;> simp [List.filter, hb]

lemma genericStabilityIssues_filter_asym (v : ℚ) (N : ℤ) :
    (genericStabilityIssues v N).filter
      (fun i => i.issue_type == "Asymmetric Movement Pattern") = [] := by
  have hb : (("Core Stability Issue" : String) == "Asymmetric Movement Pattern")
      = false := rfl
  unfold genericStabilityIssues
  split_ifs <;> simp [List.filter, hb]

/-- Claim C1 (amended): for squat metrics whose smaller knee minimum is
125 (above the insufficient-depth threshold 110 and above the severe
threshold 120), the identifier emits exactly one Insufficient Squat Depth
issue — with severity "severe", not "moderate" — at confidence 0.85, a
depth penalty of 1.75 heads the penalty list, and the squat score drops
below 10.0. -/
theorem squat_depth_125_issue (m : Metrics) (N : ℤ)
    (hmin : min (mget m "left_knee_min" 180) (mget m "right_knee_min" 180) = 125) :
    ((identify_squat_issues m N).filter
        (fun i => i.issue_type == "Insufficient Squat Depth")).map
        (fun i => (i.severity, i.confidence_score)) = [("severe", 0.85)]
      ∧ (∃ rest, squatPenalties m = 1.75 :: rest)
      ∧ calculate_squat_score m < 10 := by
  have hdp : depthPenalties 125 = [1.75] := by
    norm_num [depthPenalties, SquatStandards.INSUFFICIENT_DEPTH_THRESHOLD,
      SquatStandards.OPTIMAL_DEPTH_ANGLE, SquatStandards.DEPTH_PENALTY_MAX,
      SquatStandards.EXCESSIVE_DEPTH_MIN]
  refine ⟨?_, ?_, ?_⟩
  · unfold identify_squat_issues
    rw [hmin, List.filter_append, List.filter_append,
      valgusIssues_filter_depth, forwardLeanIssues_filter_depth,
      List.append_nil, List.append_nil]
    have hb : (("Insufficient Squat Depth" : String) == "Insufficient Squat Depth")
        = true := rfl
    norm_num [depthIssues, SquatStandards.GOOD_DEPTH_MAX_ANGLE,
      SquatStandards.SEVERE_DEPTH_THRESHOLD, SquatStandards.DEPTH_ISSUE_CONFIDENCE,
      List.filter, hb]
  · refine ⟨asymmetryPenalties
        |mget m "left_knee_avg" 180 - mget m "right_knee_avg" 180|
        ++ leanPenalties
          ((mget m "left_hip_avg" 180 + mget m "right_hip_avg" 180) / 2), ?_⟩
    unfold squatPenalties
    rw [hmin, hdp]
    rfl
  · have h1 : (squatPenalties m).sum
        = 1.75 + ((asymmetryPenalties
            |mget m "left_knee_avg" 180 - mget m "right_knee_avg" 180|).sum
          + (leanPenalties
            ((mget m "left_hip_avg" 180 + mget m "right_hip_avg" 180) / 2)).sum) := by
      unfold squatPenalties
      rw [hmin, hdp, List.sum_append, List.sum_append]
      simp only [List.sum_cons, List.sum_nil, add_zero]
      ring
    have h2 := asymmetryPenalties_sum_nonneg
      |mget m "left_knee_avg" 180 - mget m "right_knee_avg" 180|
    have h3 := leanPenalties_sum_nonneg
      ((mget m "left_hip_avg" 180 + mget m "right_hip_avg" 180) / 2)
    have h4 : max 0 (PERFECT_SCORE - (squatPenalties m).sum) ≤ 8.25 := by
      unfold PERFECT_SCORE
      apply max_le (by norm_num)
      rw [h1]
      linarith
    have h5 := pyRound1_mono h4
    have h6 : pyRound1 8.25 = 8.2 := by norm_num [pyRound1, rne]
    unfold calculate_squat_score
    rw [h6] at h5
    linarith

/-- Claim C1 witness: the amended theorem at concrete metrics with
`left_knee_min = 125`, `right_knee_min = 130`. -/
theorem squat_depth_125_issue_witness :
    ((identify_squat_issues
        [("left_knee_min", (125 : ℚ)), ("right_knee_min", 130)] 100).filter
        (fun i => i.issue_type == "Insufficient Squat Depth")).map
        (fun i => (i.severity, i.confidence_score)) = [("severe", 0.85)] := by
  have e1 : mget [("left_knee_min", (125 : ℚ)), ("right_knee_min", 130)]
      "left_knee_min" 180 = 125 := rfl
  have e2 : mget [("left_knee_min", (125 : ℚ)), ("right_knee_min", 130)]
      "right_knee_min" 180 = 130 := rfl
  exact (squat_depth_125_issue _ 100 (by rw [e1, e2]; norm_num)).1

/-- Claim C1 counterexample: at metrics with both knee minima 125 the
depth issue is emitted with severity "severe", refuting the stated
severity "moderate". -/
theorem squat_depth_125_severity_counterexample :
    (identify_squat_issues
        [("left_knee_min", (125 : ℚ)), ("right_knee_min", 125)] 100).map
        (fun i => (i.issue_type, i.severity))
      = [("Insufficient Squat Depth", "severe")] := by
  have e1 : mget [("left_knee_min", (125 : ℚ)), ("right_knee_min", 125)]
      "left_knee_min" 180 = 125 := rfl
  have e2 : mget [("left_knee_min", (125 : ℚ)), ("right_knee_min", 125)]
      "right_knee_min" 180 = 125 := rfl
  have e3 : mget [("left_knee_min", (125 : ℚ)), ("right_knee_min", 125)]
      "left_knee_avg" 180 = 180 := rfl
  have e4 : mget [("left_knee_min", (125 : ℚ)), ("right_knee_min", 125)]
      "right_knee_avg" 180 = 180 := rfl
  have e5 : mget [("left_knee_min", (125 : ℚ)), ("right_knee_min", 125)]
      "left_hip_avg" 180 = 180 := rfl
  have e6 : mget [("left_knee_min", (125 : ℚ)), ("right_knee_min", 125)]
      "right_hip_avg" 180 = 180 := rfl
  unfold identify_squat_issues
  rw [e1, e2, e3, e4, e5, e6]
  norm_num [depthIssues, valgusIssues, forwardLeanIssues,
    SquatStandards.GOOD_DEPTH_MAX_ANGLE, SquatStandards.SEVERE_DEPTH_THRESHOLD,
    SquatStandards.DEPTH_ISSUE_CONFIDENCE]

/-- Claim C9: for generic-exercise metrics whose knee asymmetry is 30°
(above the severe threshold 25°), the generic identifier emits exactly
one Asymmetric Movement Pattern issue, with severity "severe" and
confidence 0.80. -/
theorem generic_asymmetry_30_issue (m : Metrics) (N : ℤ)
    (h : |mget m "left_knee_avg" 180 - mget m "right_knee_avg" 180| = 30) :
    ((identify_generic_issues m N).filter
        (fun i => i.issue_type == "Asymmetric Movement Pattern")).map
        (fun i => (i.severity, i.confidence_score)) = [("severe", 0.80)] := by
  unfold identify_generic_issues
  rw [h, List.filter_append, List.filter_append, genericRomIssues_filter_asym,
    genericStabilityIssues_filter_asym, List.append_nil, List.append_nil]
  have h15 : (15 : ℚ)
      < max 30 |mget m "left_hip_avg" 180 - mget m "right_hip_avg" 180| :=
    lt_of_lt_of_le (by norm_num) (le_max_left _ _)
  have h25 : (25 : ℚ)
      < max 30 |mget m "left_hip_avg" 180 - mget m "right_hip_avg" 180| :=
    lt_of_lt_of_le (by norm_num) (le_max_left _ _)
  have hb : (("Asymmetric Movement Pattern" : String)
      == "Asymmetric Movement Pattern") = true := rfl
  unfold genericAsymIssues
  rw [if_pos h15, if_pos h25]
  norm_num [List.filter, hb]

/-- Claim C9 witness: the theorem at concrete metrics with knee averages
150 and 180 (asymmetry 30). -/
theorem generic_asymmetry_30_issue_witness :
    ((identify_generic_issues
        [("left_knee_avg", (150 : ℚ)), ("right_knee_avg", 180)] 10).filter
        (fun i => i.issue_type == "Asymmetric Movement Pattern")).map
        (fun i => (i.severity, i.confidence_score)) = [("severe", 0.80)] := by
  have e1 : mget [("left_knee_avg", (150 : ℚ)), ("right_knee_avg", 180)]
      "left_knee_avg" 180 = 150 := rfl
  have e2 : mget [("left_knee_avg", (150 : ℚ)), ("right_knee_avg", 180)]
      "right_knee_avg" 180 = 180 := rfl
  exact generic_asymmetry_30_issue _ 10 (by rw [e1, e2]; norm_num)

/-- Claim C10 (amended): missing knee/hip keys default to 180°, but 180°
is above the insufficient-depth threshold, so a non-empty metrics
dictionary with none of the knee/hip keys yields squat score 7.0 (a
capped depth penalty of 3.0) and exactly one squat issue — Insufficient
Squat Depth with severity "severe" — rather than score 10.0 and no
issue; the asymmetry and forward-lean checks indeed stay silent. -/
theorem squat_defaults_no_keys (m : Metrics)
    (h1 : List.lookup "left_knee_min" m = none)
    (h2 : List.lookup "right_knee_min" m = none)
    (h3 : List.lookup "left_knee_avg" m = none)
    (h4 : List.lookup "right_knee_avg" m = none)
    (h5 : List.lookup "left_hip_avg" m = none)
    (h6 : List.lookup "right_hip_avg" m = none) :
    calculate_squat_score m = 7
      ∧ ∀ N : ℤ, (identify_squat_issues m N).map
          (fun i => (i.issue_type, i.severity))
          = [("Insufficient Squat Depth", "severe")] := by
  have g1 : mget m "left_knee_min" 180 = 180 := by rw [mget, h1]; rfl
  have g2 : mget m "right_knee_min" 180 = 180 := by rw [mget, h2]; rfl
  have g3 : mget m "left_knee_avg" 180 = 180 := by rw [mget, h3]; rfl
  have g4 : mget m "right_knee_avg" 180 = 180 := by rw [mget, h4]; rfl
  have g5 : mget m "left_hip_avg" 180 = 180 := by rw [mget, h5]; rfl
  have g6 : mget m "right_hip_avg" 180 = 180 := by rw [mget, h6]; rfl
  constructor
  · unfold calculate_squat_score squatPenalties PERFECT_SCORE
    rw [g1, g2, g3, g4, g5, g6]
    norm_num [depthPenalties, asymmetryPenalties, leanPenalties,
      SquatStandards.INSUFFICIENT_DEPTH_THRESHOLD, SquatStandards.OPTIMAL_DEPTH_ANGLE,
      SquatStandards.DEPTH_PENALTY_MAX, SquatStandards.EXCESSIVE_DEPTH_MIN,
      SquatStandards.MAX_KNEE_ASYMMETRY_WARNING, SquatStandards.MIN_HIP_ANGLE_TARGET,
      pyRound1, rne]
  · intro N
    unfold identify_squat_issues
    rw [g1, g2, g3, g4, g5, g6]
    norm_num [depthIssues, valgusIssues, forwardLeanIssues,
      SquatStandards.GOOD_DEPTH_MAX_ANGLE, SquatStandards.SEVERE_DEPTH_THRESHOLD,
      SquatStandards.DEPTH_ISSUE_CONFIDENCE]

/-- Claim C10 witness: the amended theorem at the concrete non-empty
dictionary containing only the unrelated key `count`. -/
theorem squat_defaults_no_keys_witness :
    calculate_squat_score [("count", (10 : ℚ))] = 7 :=
  (squat_defaults_no_keys [("count", (10 : ℚ))] rfl rfl rfl rfl rfl rfl).1

/-- Claim C10 counterexample: the non-empty metrics dictionary
`{count: 10}` with no knee/hip keys gets squat score 7.0 (not 10.0) and
an Insufficient Squat Depth issue of severity "severe" (not an empty
issue list). -/
theorem squat_defaults_counterexample :
    calculate_squat_score [("count", (10 : ℚ))] = 7
      ∧ calculate_squat_score [("count", (10 : ℚ))] ≠ 10
      ∧ (identify_squat_issues [("count", (10 : ℚ))] 30).map
          (fun i => (i.issue_type, i.severity))
          = [("Insufficient Squat Depth", "severe")] := by
  have g1 : mget [("count", (10 : ℚ))] "left_knee_min" 180 = 180 := rfl
  have g2 : mget [("count", (10 : ℚ))] "right_knee_min" 180 = 180 := rfl
  have g3 : mget [("count", (10 : ℚ))] "left_knee_avg" 180 = 180 := rfl
  have g4 : mget [("count", (10 : ℚ))] "right_knee_avg" 180 = 180 := rfl
  have g5 : mget [("count", (10 : ℚ))] "left_hip_avg" 180 = 180 := rfl
  have g6 : mget [("count", (10 : ℚ))] "right_hip_avg" 180 = 180 := rfl
  have hscore : calculate_squat_score [("count", (10 : ℚ))] = 7 := by
    unfold calculate_squat_score squatPenalties PERFECT_SCORE
    rw [g1, g2, g3, g4, g5, g6]
    norm_num [depthPenalties, asymmetryPenalties, leanPenalties,
      SquatStandards.INSUFFICIENT_DEPTH_THRESHOLD, SquatStandards.OPTIMAL_DEPTH_ANGLE,
      SquatStandards.DEPTH_PENALTY_MAX, SquatStandards.EXCESSIVE_DEPTH_MIN,
      SquatStandards.MAX_KNEE_ASYMMETRY_WARNING, SquatStandards.MIN_HIP_ANGLE_TARGET,
      pyRound1, rne]
  refine ⟨hscore, by rw [hscore]; norm_num, ?_⟩
  unfold identify_squat_issues
  rw [g1, g2, g3, g4, g5, g6]
  norm_num [depthIssues, valgusIssues, forwardLeanIssues,
    SquatStandards.GOOD_DEPTH_MAX_ANGLE, SquatStandards.SEVERE_DEPTH_THRESHOLD,
    SquatStandards.DEPTH_ISSUE_CONFIDENCE]

/-- The FormIssue frame-range invariant from the data model:
`0 ≤ frame_start ≤ frame_end ≤ total_frames`. -/
abbrev issueFramesOK (N : ℤ) (i : Issue) : Prop :=
  0 ≤ i.frame_start ∧ i.frame_start ≤ i.frame_end ∧ i.frame_end ≤ N

lemma pyTrunc_bounds (N : ℤ) (hN : 1 ≤ N) (p q : ℚ)
    (hp : 0 ≤ p) (hpq : p ≤ q) (hq : q ≤ 1) :
    0 ≤ pyTrunc ((N : ℚ) * p) ∧ pyTrunc ((N : ℚ) * p) ≤ pyTrunc ((N : ℚ) * q)
      ∧ pyTrunc ((N : ℚ) * q) ≤ N := by
  have hN0 : (0 : ℚ) ≤ (N : ℚ) := by exact_mod_cast (by omega : (0 : ℤ) ≤ N)
  have hNp : 0 ≤ (N : ℚ) * p := mul_nonneg hN0 hp
  have hNq : 0 ≤ (N : ℚ) * q := mul_nonneg hN0 (hp.trans hpq)
  unfold pyTrunc
  rw [if_pos hNp, if_pos hNq]
  refine ⟨Int.floor_nonneg.mpr hNp, Int.floor_mono ?_, ?_⟩
  · exact mul_le_mul_of_nonneg_left hpq hN0
  · have h1 : (N : ℚ) * q ≤ (N : ℚ) := by nlinarith
    calc ⌊(N : ℚ) * q⌋ ≤ ⌊(N : ℚ)⌋ := Int.floor_mono h1
      _ = N := Int.floor_intCast N

lemma depthIssues_framesOK (mk : ℚ) (N : ℤ) (hN : 1 ≤ N) :
    ∀ i ∈ depthIssues mk N, issueFramesOK N i := by
  intro i hi
  obtain ⟨b1, b2, b3⟩ :=
      pyTrunc_bounds N hN 0.2 0.8 (by norm_num) (by norm_num) (by norm_num)
  unfold depthIssues at hi
  split_ifs at hi <;>
    first
      | (simp only [List.mem_singleton] at hi; subst hi; exact ⟨b1, b2, b3⟩)
      | simp at hi

lemma valgusIssues_framesOK (a : ℚ) (N : ℤ) (hN : 1 ≤ N) :
    ∀ i ∈ valgusIssues a N, issueFramesOK N i := by
  intro i hi
  obtain ⟨b1, b2, b3⟩ :=
      pyTrunc_bounds N hN 0.25 0.75 (by norm_num) (by norm_num) (by norm_num)
  unfold valgusIssues at hi
  split_ifs at hi <;>
    first
      | (simp only [List.mem_singleton] at hi; subst hi; exact ⟨b1, b2, b3⟩)
      | simp at hi

lemma forwardLeanIssues_framesOK (h : ℚ) (N : ℤ) (hN : 1 ≤ N) :
    ∀ i ∈ forwardLeanIssues h N, issueFramesOK N i := by
  intro i hi
  obtain ⟨b1, b2, b3⟩ :=
      pyTrunc_bounds N hN 0.1 0.9 (by norm_num) (by norm_num) (by norm_num)
  unfold forwardLeanIssues at hi
  split_ifs at hi <;>
    first
      | (simp only [List.mem_singleton] at hi; subst hi; exact ⟨b1, b2, b3⟩)
      | simp at hi

lemma genericAsymIssues_framesOK (a : ℚ) (N : ℤ) (hN : 1 ≤ N) :
    ∀ i ∈ genericAsymIssues a N, issueFramesOK N i := by
  intro i hi
  obtain ⟨b1, b2, b3⟩ :=
      pyTrunc_bounds N hN 0.2 0.8 (by norm_num) (by norm_num) (by norm_num)
  unfold genericAsymIssues at hi
  split_ifs at hi <;>
    first
      | (simp only [List.mem_singleton] at hi; subst hi; exact ⟨b1, b2, b3⟩)
      | simp at hi

lemma genericRomIssues_framesOK (r : ℚ) (N : ℤ) (hN : 1 ≤ N) :
    ∀ i ∈ genericRomIssues r N, issueFramesOK N i := by
  intro i hi
  unfold genericRomIssues at hi
  split_ifs at hi <;>
    first
      | (simp only [List.mem_singleton] at hi; subst hi;
         exact ⟨le_refl 0, by show (0 : ℤ) ≤ N - 1; omega, by show N - 1 ≤ N; omega⟩)
      | simp at hi

lemma genericStabilityIssues_framesOK (v : ℚ) (N : ℤ) (hN : 1 ≤ N) :
    ∀ i ∈ genericStabilityIssues v N, issueFramesOK N i := by
  intro i hi
  obtain ⟨b1, b2, b3⟩ :=
      pyTrunc_bounds N hN 0.25 0.75 (by norm_num) (by norm_num) (by norm_num)
  unfold genericStabilityIssues at hi
  split_ifs at hi <;>
    first
      | (simp only [List.mem_singleton] at hi; subst hi; exact ⟨b1, b2, b3⟩)
      | simp at hi

/-- Claim C7 (amended): for every metrics input and every
`total_frames ≥ 1`, every issue emitted by the squat or generic
identifier satisfies `0 ≤ frame_start ≤ frame_end ≤ total_frames` (the
bound fails at `total_frames = 0`, where the limited-range-of-motion
issue gets `frame_end = -1`). -/
theorem issue_frame_ranges_valid (m : Metrics) (N : ℤ) (hN : 1 ≤ N) (i : Issue)
    (hi : i ∈ identify_squat_issues m N ∨ i ∈ identify_generic_issues m N) :
    issueFramesOK N i := by
  rcases hi with hi | hi
  · unfold identify_squat_issues at hi
    rcases List.mem_append.mp hi with hi | hi
    · rcases List.mem_append.mp hi with hi | hi
      · exact depthIssues_framesOK _ _ hN i hi
      · exact valgusIssues_framesOK _ _ hN i hi
    · exact forwardLeanIssues_framesOK _ _ hN i hi
  · unfold identify_generic_issues at hi
    rcases List.mem_append.mp hi with hi | hi
    · rcases List.mem_append.mp hi with hi | hi
      · exact genericAsymIssues_framesOK _ _ hN i hi
      · exact genericRomIssues_framesOK _ _ hN i hi
    · exact genericStabilityIssues_framesOK _ _ hN i hi

/-- Claim C7 witness: the amended theorem at concrete metrics (limited
knee range) and `total_frames = 30`, on the emitted
limited-range-of-motion issue. -/
theorem issue_frame_ranges_valid_witness :
    issueFramesOK 30
      ({ issue_type := "Limited Range of Motion", severity := "moderate",
         frame_start := 0, frame_end := 29, confidence_score := 0.75 } : Issue) := by
  apply issue_frame_ranges_valid
    [("left_knee_max", (100 : ℚ)), ("left_knee_min", 90)] 30 (by norm_num)
  right
  have e1 : mget [("left_knee_max", (100 : ℚ)), ("left_knee_min", 90)]
      "left_knee_max" 180 = 100 := rfl
  have e2 : mget [("left_knee_max", (100 : ℚ)), ("left_knee_min", 90)]
      "left_knee_min" 0 = 90 := rfl
  have e3 : mget [("left_knee_max", (100 : ℚ)), ("left_knee_min", 90)]
      "left_knee_avg" 180 = 180 := rfl
  have e4 : mget [("left_knee_max", (100 : ℚ)), ("left_knee_min", 90)]
      "right_knee_avg" 180 = 180 := rfl
  have e5 : mget [("left_knee_max", (100 : ℚ)), ("left_knee_min", 90)]
      "left_hip_avg" 180 = 180 := rfl
  have e6 : mget [("left_knee_max", (100 : ℚ)), ("left_knee_min", 90)]
      "right_hip_avg" 180 = 180 := rfl
  unfold identify_generic_issues
  rw [e1, e2, e3, e4, e5, e6]
  norm_num [genericAsymIssues, genericRomIssues, genericStabilityIssues]

/-- Claim C7 counterexample: at `total_frames = 0` the generic
limited-range-of-motion issue is emitted with `frame_end = -1`, violating
`0 ≤ frame_start ≤ frame_end ≤ total_frames`. -/
theorem issue_frame_range_zero_frames_counterexample :
    ({ issue_type := "Limited Range of Motion", severity := "moderate",
       frame_start := 0, frame_end := -1, confidence_score := 0.75 } : Issue)
        ∈ identify_generic_issues
          [("left_knee_max", (100 : ℚ)), ("left_knee_min", 90)] 0
      ∧ ¬ issueFramesOK 0
        ({ issue_type := "Limited Range of Motion", severity := "moderate",
           frame_start := 0, frame_end := -1, confidence_score := 0.75 } : Issue) := by
  constructor
  · have e1 : mget [("left_knee_max", (100 : ℚ)), ("left_knee_min", 90)]
        "left_knee_max" 180 = 100 := rfl
    have e2 : mget [("left_knee_max", (100 : ℚ)), ("left_knee_min", 90)]
        "left_knee_min" 0 = 90 := rfl
    have e3 : mget [("left_knee_max", (100 : ℚ)), ("left_knee_min", 90)]
        "left_knee_avg" 180 = 180 := rfl
    have e4 : mget [("left_knee_max", (100 : ℚ)), ("left_knee_min", 90)]
        "right_knee_avg" 180 = 180 := rfl
    have e5 : mget [("left_knee_max", (100 : ℚ)), ("left_knee_min", 90)]
        "left_hip_avg" 180 = 180 := rfl
    have e6 : mget [("left_knee_max", (100 : ℚ)), ("left_knee_min", 90)]
        "right_hip_avg" 180 = 180 := rfl
    unfold identify_generic_issues
    rw [e1, e2, e3, e4, e5, e6]
    norm_num [genericAsymIssues, genericRomIssues, genericStabilityIssues]
  · intro hbad
    have := hbad.2.1
    simp at this

/-- Claim C8: boundary behaviour of the EMA blend — `smooth(None, v, α) =
v` for any `v` and `α`; `smooth(prev, curr, 1.0) = curr`; and
`smooth(prev, curr, 0.0) = prev`. -/
theorem ema_boundary_properties (prev curr : AngleVec) (alpha : ℚ) :
    ema none curr alpha = curr
      ∧ ema (some prev) curr 1 = curr
      ∧ ema (some prev) curr 0 = prev := by
  refine ⟨rfl, ?_, ?_⟩
  · cases prev
    cases curr
    simp only [ema, AngleVec.mk.injEq]
    exact ⟨by ring, by ring, by ring, by ring⟩
  · cases prev
    cases curr
    simp only [ema, AngleVec.mk.injEq]
    exact ⟨by ring, by ring, by ring, by ring⟩

lemma feedbackRun_suppressed : ∀ (fs : List String) (s : LoopState),
    (fs.length : ℤ) ≤ s.cooldown → ∀ b ∈ feedbackRun s fs, b = false := by
  intro fs
  induction fs with
  | nil => intro s _ b hb; simp [feedbackRun] at hb
  | cons f fs ih =>
      intro s h b hb
      have hc : ¬ s.cooldown ≤ 0 := by
        simp only [List.length_cons] at h
        push_cast at h
        omega
      have hstep : feedbackStep s f
          = ({ last := s.last, cooldown := max 0 (s.cooldown - 1) }, false) := by
        unfold feedbackStep
        rw [if_neg]
        intro hand
        exact hc hand.2
      rw [feedbackRun, hstep] at hb
      simp only [List.mem_cons] at hb
      rcases hb with hb | hb
      · exact hb
      · refine ih _ ?_ b hb
        simp only [List.length_cons] at h
        push_cast at h ⊢
        omega

/-- Claim C5 (amended): a notification fires exactly when the feedback
string differs from the last notified one AND the cooldown has expired;
after a notification the cooldown stands at 29 once the emitting frame's
decrement runs, and for the following 29 frames every notification —
identical or changed feedback string alike — is suppressed.  A changed
string alone is NOT sufficient while the countdown is positive, and an
identical string stays suppressed even after it expires. -/
theorem feedback_cooldown_gate :
    (∀ (s : LoopState) (f : String),
        (feedbackStep s f).2 = true ↔ (f ≠ s.last ∧ s.cooldown ≤ 0))
      ∧ (∀ (s : LoopState) (f : String),
          (feedbackStep s f).2 = true → (feedbackStep s f).1.cooldown = 29)
      ∧ (∀ (s : LoopState) (f : String) (fs : List String),
          (feedbackStep s f).2 = true → fs.length ≤ 29 →
          ∀ b ∈ feedbackRun (feedbackStep s f).1 fs, b = false) := by
  have hiff : ∀ (s : LoopState) (f : String),
      (feedbackStep s f).2 = true ↔ (f ≠ s.last ∧ s.cooldown ≤ 0) := by
    intro s f
    unfold feedbackStep
    split_ifs with hc
    · simpa using hc
    · simpa using hc
  have hcool : ∀ (s : LoopState) (f : String),
      (feedbackStep s f).2 = true → (feedbackStep s f).1.cooldown = 29 := by
    intro s f he
    have hc := (hiff s f).mp he
    unfold feedbackStep
    rw [if_pos hc]
    rfl
  refine ⟨hiff, hcool, ?_⟩
  intro s f fs he hlen b hb
  refine feedbackRun_suppressed fs (feedbackStep s f).1 ?_ b hb
  rw [hcool s f he]
  exact_mod_cast hlen

/-- Claim C5 witness: the characterisation applied after a concrete
notification — the post-notification cooldown stands at 29. -/
theorem feedback_cooldown_gate_witness :
    (feedbackStep ⟨"", 0⟩ "GOOD FORM").1.cooldown = 29 :=
  feedback_cooldown_gate.2.1 ⟨"", 0⟩ "GOOD FORM" (by decide)

/-- Claim C5 counterexample: right after a notification fires, a frame
with a CHANGED feedback string is still suppressed (the countdown is
positive), refuting that a changed tier string suffices for a new
notification. -/
theorem feedback_changed_tier_suppressed_counterexample :
    (feedbackStep ⟨"", 0⟩ "GOOD FORM").2 = true
      ∧ "FIX FORM" ≠ (feedbackStep ⟨"", 0⟩ "GOOD FORM").1.last
      ∧ (feedbackStep (feedbackStep ⟨"", 0⟩ "GOOD FORM").1 "FIX FORM").2 = false := by
  decide

/-! Range of the source `angle` function over non-NaN cosines: degrees of
`arccos` always land in [0, 180]. -/

lemma farccosDegrees_range (u : FR) :
    farccosDegrees (fclip u) = none
      ∨ ∃ r : ℝ, farccosDegrees (fclip u) = some r ∧ 0 ≤ r ∧ r ≤ 180 := by
  cases u with
  | none => exact Or.inl rfl
  | some x =>
      right
      refine ⟨Real.arccos (min (max x (-1)) 1) * (180 / Real.pi), rfl, ?_, ?_⟩
      · exact mul_nonneg (Real.arccos_nonneg _) (by positivity)
      · have h1 : Real.arccos (min (max x (-1)) 1) ≤ Real.pi := Real.arccos_le_pi _
        have h2 : Real.arccos (min (max x (-1)) 1) * (180 / Real.pi)
            ≤ Real.pi * (180 / Real.pi) :=
          mul_le_mul_of_nonneg_right h1 (by positivity)
        have h3 : Real.pi * (180 / Real.pi) = 180 := by
          field_simp
        linarith

lemma angleF_range (a b c : Pt) :
    angleF a b c = none
      ∨ ∃ r : ℝ, angleF a b c = some r ∧ 0 ≤ r ∧ r ≤ 180 := by
  unfold angleF
  exact farccosDegrees_range _

lemma extractGuard_some {hip knee back ankle : FR} {v : Vec4F}
    (h : extractGuard hip knee back ankle = some v) :
    v = ⟨hip, knee, back, ankle⟩ := by
  unfold extractGuard at h
  split_ifs at h
  first
    | exact Option.noConfusion h
    | exact (Option.some.inj h).symm

/-- Claim C3 (amended): the angle extractor fails closed (`None`) when
the landmark set is absent or a required index cannot be resolved, and
every returned component that is an actual number lies in [0°, 180°];
however a NaN computed angle is NOT rejected by the range guard (IEEE
comparisons with NaN are all false), so the extractor can return a vector
containing NaN (`none` components in this model) — callers filter NaN
themselves. -/
theorem extract_angle_vector_safety :
    extract_angle_vector none = none
      ∧ (∀ l : List Pt, l.get? 30 = none → extract_angle_vector (some l) = none)
      ∧ (∀ (l : List Pt) (v : Vec4F), extract_angle_vector (some l) = some v →
          (v.hip = none ∨ ∃ r : ℝ, v.hip = some r ∧ 0 ≤ r ∧ r ≤ 180)
            ∧ (v.knee = none ∨ ∃ r : ℝ, v.knee = some r ∧ 0 ≤ r ∧ r ≤ 180)
            ∧ (v.back = none ∨ ∃ r : ℝ, v.back = some r ∧ 0 ≤ r ∧ r ≤ 180)
            ∧ (v.ankle = none ∨ ∃ r : ℝ, v.ankle = some r ∧ 0 ≤ r ∧ r ≤ 180)) := by
  refine ⟨rfl, ?_, ?_⟩
  · intro l h30
    show extractFromList l = none
    unfold extractFromList
    rw [h30]
    cases h12 : l.get? 12 <;> cases h23 : l.get? 23 <;> cases h24 : l.get? 24 <;>
      cases h25 : l.get? 25 <;> cases h26 : l.get? 26 <;> cases h27 : l.get? 27 <;>
      cases h28 : l.get? 28 <;> rfl
  · intro l v
    show extractFromList l = some v → _
    unfold extractFromList
    cases h12 : l.get? 12 <;> cases h23 : l.get? 23 <;> cases h24 : l.get? 24 <;>
      cases h25 : l.get? 25 <;> cases h26 : l.get? 26 <;> cases h27 : l.get? 27 <;>
      cases h28 : l.get? 28 <;> cases h30 : l.get? 30 <;> intro hv <;>
      first
        | exact Option.noConfusion hv
        | (have hv' := extractGuard_some hv
           subst hv'
           exact ⟨angleF_range _ _ _, angleF_range _ _ _,
             angleF_range _ _ _, angleF_range _ _ _⟩)

/-- Claim C3 witness: the safety theorem applied to an empty landmark
list, where the required indices cannot be resolved. -/
theorem extract_angle_vector_safety_witness :
    extract_angle_vector (some ([] : List Pt)) = none :=
  extract_angle_vector_safety.2.1 [] rfl

/-- A landmark whose coordinates are all NaN. -/
noncomputable def nanPt : Pt := ⟨none, none, none⟩

/-- A full 31-landmark set of NaN points. -/
noncomputable def nanLandmarks : List Pt := List.replicate 31 nanPt

/-- Claim C3 counterexample: on a landmark set whose coordinates are NaN,
every computed angle is NaN, the range guard passes (IEEE comparisons
with NaN are false), and the extractor returns a vector all of whose
components are NaN (`none`) instead of `None` — refuting both "no
component is NaN" and "a NaN angle yields None". -/
theorem extract_angle_vector_nan_counterexample :
    extract_angle_vector (some nanLandmarks)
      = some ⟨none, none, none, none⟩ := rfl
